import Mathlib

/-!
Verification of the fleet-maintenance add-in data store and reminder
lifecycle engine.  The definitions below are a shallow embedding of the
JavaScript source (`data.js`, `app.js`, `geotab.js`): the `DataStore`
object becomes an explicit `Store` value threaded through the operations,
string-valued enumerations (`'High'`, `'overdue'`, `'Odometer'`, ...)
become inductive types, JS numbers holding telemetry values become `Int`,
nullable fields become `Option`, and the `localStorage` persistence calls
(`_persist`, `init`) are external effects with no bearing on store state,
so they are dropped.  Wall-clock inputs (the current year-month used by
`getWOStats`) become explicit parameters.
-/

/-- Priority levels of a reminder (`'High' | 'Medium' | 'Low'`). -/
inductive Priority where
  | high
  | medium
  | low
deriving DecidableEq, Repr

/-- Numeric rank used by the trigger pipeline's sort comparator,
`{ High: 0, Medium: 1, Low: 2 }`. -/
def priorityOrder : Priority → Nat
  | .high => 0
  | .medium => 1
  | .low => 2

/-- Reminder status (`'scheduled' | 'due-soon' | 'overdue'`). -/
inductive RStatus where
  | scheduled
  | dueSoon
  | overdue
deriving DecidableEq, Repr

/-- Trigger type (`'Odometer' | 'Interval' | 'Date' | 'Engine Hours'`). -/
inductive TriggerType where
  | odometer
  | interval
  | date
  | engineHours
deriving DecidableEq, Repr

/-- Work order status (`'Open' | 'In Progress' | 'Completed'`). -/
inductive WOStatus where
  | open_
  | inProgress
  | completed
deriving DecidableEq, Repr

/-- A reminder record.  `vehicles` is `some vs` when the record carries a
multi-vehicle array (records written by `saveReminder`) and `none` for
legacy single-vehicle records (the seed data), mirroring the
`Array.isArray(r.vehicles)` checks in the source. -/
structure Reminder where
  id : String
  vehicle : String
  vehicles : Option (List String)
  make : String
  task : String
  type : TriggerType
  status : RStatus
  current : Int
  target : Int
  warn : Int
  priority : Priority
  notified : Bool
  assignee : String
  notes : String
  date : String
deriving DecidableEq, Repr

/-- The vehicle list used by `acceptAndCreateWO` and the render layer:
`Array.isArray(r.vehicles) ? r.vehicles : [r.vehicle]`. -/
def Reminder.vehicleList (r : Reminder) : List String :=
  match r.vehicles with
  | some vs => vs
  | none => [r.vehicle]

/-- A work order record.  `cost` is the nullable number (`null` = `none`);
`completionDate` is `""` while unset. -/
structure WorkOrder where
  id : String
  vehicle : String
  make : String
  task : String
  status : WOStatus
  assignee : String
  odo : String
  cost : Option Int
  date : String
  notes : String
  parts : String
  labor : String
  reminderId : Option String
  completionDate : String
deriving DecidableEq, Repr

/-- Payload passed to `addReminder` (every field of a reminder except the
store-assigned `id`). -/
structure ReminderData where
  vehicle : String
  vehicles : Option (List String)
  make : String
  task : String
  type : TriggerType
  status : RStatus
  current : Int
  target : Int
  warn : Int
  priority : Priority
  notified : Bool
  assignee : String
  notes : String
  date : String
deriving DecidableEq, Repr

/-- Build the stored record `{ id, ...data }`. -/
def ReminderData.toReminder (d : ReminderData) (id : String) : Reminder :=
  { id := id, vehicle := d.vehicle, vehicles := d.vehicles, make := d.make,
    task := d.task, type := d.type, status := d.status, current := d.current,
    target := d.target, warn := d.warn, priority := d.priority,
    notified := d.notified, assignee := d.assignee, notes := d.notes,
    date := d.date }

/-- Payload passed to `addWorkOrder` (every field except the assigned id). -/
structure WorkOrderData where
  vehicle : String
  make : String
  task : String
  status : WOStatus
  assignee : String
  odo : String
  cost : Option Int
  date : String
  notes : String
  parts : String
  labor : String
  reminderId : Option String
  completionDate : String
deriving DecidableEq, Repr

/-- Build the stored record `{ id, ...data }`. -/
def WorkOrderData.toWorkOrder (d : WorkOrderData) (id : String) : WorkOrder :=
  { id := id, vehicle := d.vehicle, make := d.make, task := d.task,
    status := d.status, assignee := d.assignee, odo := d.odo, cost := d.cost,
    date := d.date, notes := d.notes, parts := d.parts, labor := d.labor,
    reminderId := d.reminderId, completionDate := d.completionDate }

/-- A partial record for `updateReminder(id, data)`: a field is `some v`
when `data` carries that field, `none` when it is absent, so
`{ ...r, ...data }` keeps the old value exactly for the `none` fields. -/
structure ReminderPatch where
  id : Option String
  vehicle : Option String
  vehicles : Option (Option (List String))
  make : Option String
  task : Option String
  type : Option TriggerType
  status : Option RStatus
  current : Option Int
  target : Option Int
  warn : Option Int
  priority : Option Priority
  notified : Option Bool
  assignee : Option String
  notes : Option String
  date : Option String
deriving DecidableEq, Repr

/-- The empty partial `{}`. -/
def ReminderPatch.empty : ReminderPatch :=
  ⟨none, none, none, none, none, none, none, none, none, none, none, none,
   none, none, none⟩

/-- Shallow merge `{ ...r, ...data }`. -/
def applyPatch (r : Reminder) (p : ReminderPatch) : Reminder :=
  { id := p.id.getD r.id, vehicle := p.vehicle.getD r.vehicle,
    vehicles := p.vehicles.getD r.vehicles, make := p.make.getD r.make,
    task := p.task.getD r.task, type := p.type.getD r.type,
    status := p.status.getD r.status, current := p.current.getD r.current,
    target := p.target.getD r.target, warn := p.warn.getD r.warn,
    priority := p.priority.getD r.priority,
    notified := p.notified.getD r.notified,
    assignee := p.assignee.getD r.assignee, notes := p.notes.getD r.notes,
    date := p.date.getD r.date }

/-- The store state: both collections plus both id counters
(`_reminders`, `_workOrders`, `_woCounter`, `_rCounter`). -/
structure Store where
  reminders : List Reminder
  workOrders : List WorkOrder
  woCounter : Nat
  rCounter : Nat
deriving DecidableEq, Repr

/-- Decimal digit characters of a natural number, most significant first:
the embedding of JavaScript `String(n)` for a natural. -/
def natDigits (n : Nat) : List Char :=
  if _ : n < 10 then [Nat.digitChar n]
  else natDigits (n / 10) ++ [Nat.digitChar (n % 10)]
decreasing_by exact Nat.div_lt_self (by omega) (by omega)

/-- Left-pad a character list with `'0'` to length 3:
`String.prototype.padStart(3, '0')`. -/
def padChars3 (cs : List Char) : List Char :=
  if cs.length < 3 then List.replicate (3 - cs.length) '0' ++ cs else cs

/-- Reminder id string `'R' + String(n).padStart(3, '0')`. -/
def rIdStr (n : Nat) : String :=
  String.mk ('R' :: padChars3 (natDigits n))

/-- Work order id string `'WO-' + n`. -/
def woIdStr (n : Nat) : String :=
  String.mk ('W' :: 'O' :: '-' :: natDigits n)

/-- The status evaluator shared verbatim by `updateOdometer`
(data.js lines 227-234) and `saveReminder` (lines 895-899):
`current >= target` gives overdue, else `target - current <= warn` gives
due-soon, else scheduled. -/
def evalStatus (current target warn : Int) : RStatus :=
  if current ≥ target then .overdue
  else if target - current ≤ warn then .dueSoon
  else .scheduled

/-- `addReminder(data)`: assign `'R' + String(counter++).padStart(3,'0')`,
unshift onto the collection, return the stored record. -/
def addReminder (d : ReminderData) (s : Store) : Reminder × Store :=
  let r := d.toReminder (rIdStr s.rCounter)
  (r, { s with reminders := r :: s.reminders, rCounter := s.rCounter + 1 })

/-- Replace the first record whose id matches, as
`findIndex` followed by an index assignment does; `none` when no match. -/
def updateFirst (id : String) (p : ReminderPatch) :
    List Reminder → Option (Reminder × List Reminder)
  | [] => none
  | r :: rest =>
    if r.id = id then some (applyPatch r p, applyPatch r p :: rest)
    else
      match updateFirst id p rest with
      | none => none
      | some (u, rest') => some (u, r :: rest')

/-- `updateReminder(id, data)`: merge onto the existing record, `null`
and no state change when the id is unknown. -/
def updateReminder (id : String) (p : ReminderPatch) (s : Store) :
    Option Reminder × Store :=
  match updateFirst id p s.reminders with
  | none => (none, s)
  | some (u, l) => (some u, { s with reminders := l })

/-- Remove the first record whose id matches (`findIndex` + `splice`);
`none` when no match. -/
def eraseFirstReminder (id : String) :
    List Reminder → Option (List Reminder)
  | [] => none
  | r :: rest =>
    if r.id = id then some rest
    else (eraseFirstReminder id rest).map (r :: ·)

/-- `deleteReminder(id)`: remove if present, return the success flag. -/
def deleteReminder (id : String) (s : Store) : Bool × Store :=
  match eraseFirstReminder id s.reminders with
  | none => (false, s)
  | some l => (true, { s with reminders := l })

/-- The `forEach` body of `updateOdometer`: rewrite `current` and
recompute `status` on every reminder whose `vehicle` field equals the
given id and whose type is not `Date`; the flag records whether any
reminder was touched. -/
def updateOdometerList (vehicleId : String) (odometer : Int) :
    List Reminder → List Reminder × Bool
  | [] => ([], false)
  | r :: rest =>
    let p := updateOdometerList vehicleId odometer rest
    if r.vehicle = vehicleId ∧ r.type ≠ .date then
      ({ r with current := odometer,
                status := evalStatus odometer r.target r.warn } :: p.1, true)
    else (r :: p.1, p.2)

/-- `updateOdometer(vehicleId, odometer)`: apply the reading and return
the changed flag. -/
def updateOdometer (vehicleId : String) (odometer : Int) (s : Store) :
    Bool × Store :=
  let p := updateOdometerList vehicleId odometer s.reminders
  (p.2, { s with reminders := p.1 })

/-- `addWorkOrder(data)`: assign `'WO-' + (++counter)` (pre-increment),
unshift, return the stored record. -/
def addWorkOrder (d : WorkOrderData) (s : Store) : WorkOrder × Store :=
  let wo := d.toWorkOrder (woIdStr (s.woCounter + 1))
  (wo, { s with workOrders := wo :: s.workOrders,
                woCounter := s.woCounter + 1 })

/-- Remove the first work order whose id matches; `none` when no match. -/
def eraseFirstWorkOrder (id : String) :
    List WorkOrder → Option (List WorkOrder)
  | [] => none
  | w :: rest =>
    if w.id = id then some rest
    else (eraseFirstWorkOrder id rest).map (w :: ·)

/-- `deleteWorkOrder(id)`: remove if present, return the success flag. -/
def deleteWorkOrder (id : String) (s : Store) : Bool × Store :=
  match eraseFirstWorkOrder id s.workOrders with
  | none => (false, s)
  | some l => (true, { s with workOrders := l })

/-- Embedding of JavaScript `s.startsWith(pre)`: the characters of `pre`
occur at the start of `s`. -/
def jsStartsWith (s pre : String) : Bool :=
  pre.data.isPrefixOf s.data

/-- Result of `getWOStats()` (field `open` of the source record is
spelled `openCount` because `open` is reserved in Lean). -/
structure WOStats where
  openCount : Nat
  inProgress : Nat
  completed : Nat
  spend : Int
deriving DecidableEq, Repr

/-- `getWOStats()`, with the wall-clock year-month string
`` `${now.getFullYear()}-${month}` `` passed in as `thisMonth`.  The
month bucket is `w.date && w.date.startsWith(thisMonth)`; `spend` sums
`w.cost || 0` over the bucket; `completed` counts the bucket's
`'Completed'` orders. -/
def getWOStats (thisMonth : String) (s : Store) : WOStats :=
  let wos := s.workOrders
  let mtd := wos.filter fun w =>
    decide (w.date ≠ "") && jsStartsWith w.date thisMonth
  { openCount := (wos.filter fun w => decide (w.status = .open_)).length,
    inProgress :=
      (wos.filter fun w => decide (w.status = .inProgress)).length,
    completed := (mtd.filter fun w => decide (w.status = .completed)).length,
    spend := mtd.foldl (fun sum w => sum + w.cost.getD 0) 0 }

/-- Group the reversed digit stream with a comma after every third
character, producing the reversed grouped stream. -/
def groupRev : List Char → Nat → List Char
  | [], _ => []
  | c :: rest, k =>
    if k ≠ 0 ∧ k % 3 = 0 then ',' :: c :: groupRev rest (k + 1)
    else c :: groupRev rest (k + 1)

/-- `Number.prototype.toLocaleString()` for integers in the en-US style
used by the source's display strings: decimal digits with `','`
thousands separators. -/
def intLocale (i : Int) : String :=
  let digits := String.mk ((groupRev (natDigits i.natAbs).reverse 0).reverse)
  if i < 0 then "-" ++ digits else digits

/-- The `KNOWN_VEHICLES` seed table of app.js. -/
def knownVehicles : List (String × String) :=
  [("TRK-041", "2022 Ford F-250"), ("VAN-012", "2021 Mercedes Sprinter"),
   ("FLT-088", "2023 Chevy Silverado"), ("TRK-022", "2020 Ram 2500"),
   ("SED-055", "2022 Ford Explorer"), ("TRK-099", "2023 Ram 1500"),
   ("VAN-031", "2021 Ford Transit")]

/-- `KNOWN_VEHICLES.find(v => v.id === vehicleId)?.make`, empty string
when absent. -/
def lookupMake (vehicleId : String) : String :=
  (((knownVehicles.find? fun p => p.1 == vehicleId).map fun p => p.2).getD "")

/-- The work order payload built for one vehicle inside
`acceptAndCreateWO`: status `'Open'`, `odo` stamped from the reminder's
`current` via `toLocaleString()`, `reminderId` back-reference, and the
provenance note `"Auto-created from reminder <id>"` when `notes` is
empty (falsy). -/
def acceptWOData (r : Reminder) (vehicleId assignee date notes : String) :
    WorkOrderData :=
  { vehicle := vehicleId, make := lookupMake vehicleId, task := r.task,
    status := .open_, assignee := assignee, odo := intLocale r.current,
    cost := none, date := date,
    notes := if notes = "" then "Auto-created from reminder " ++ r.id
             else notes,
    parts := "", labor := "", reminderId := some r.id,
    completionDate := "" }

/-- The `vehicles.map(vehicleId => DataStore.addWorkOrder({...}))` loop:
one `addWorkOrder` per vehicle, collecting the created records in
vehicle order. -/
def acceptLoop (r : Reminder) (assignee date notes : String) :
    List String → Store → List WorkOrder × Store
  | [], s => ([], s)
  | v :: vs, s =>
    let p := addWorkOrder (acceptWOData r v assignee date notes) s
    let rest := acceptLoop r assignee date notes vs p.2
    (p.1 :: rest.1, rest.2)

/-- `acceptAndCreateWO` of app.js applied to a pending reminder:
fan out over `Array.isArray(r.vehicles) ? r.vehicles : [r.vehicle]`. -/
def acceptAndCreateWO (r : Reminder) (assignee date notes : String)
    (s : Store) : List WorkOrder × Store :=
  acceptLoop r assignee date notes r.vehicleList s

/-- The trigger pipeline's selection predicate:
`r.status === 'overdue' && !r.notified`. -/
def triggeredPred (r : Reminder) : Bool :=
  decide (r.status = .overdue ∧ r.notified = false)

/-- The filtered list `reminders.filter(r => r.status === 'overdue' &&
!r.notified)` that `_checkForTriggeredReminders` works on. -/
def eligibleReminders (s : Store) : List Reminder :=
  s.reminders.filter triggeredPred

/-- The sort comparator `priorityOrder[a.priority] -
priorityOrder[b.priority]`, as the boolean order it induces. -/
def remLE (a b : Reminder) : Bool :=
  decide (priorityOrder a.priority ≤ priorityOrder b.priority)

/-- Stable insertion used to model the stable `Array.prototype.sort`. -/
def insertRem (a : Reminder) : List Reminder → List Reminder
  | [] => [a]
  | b :: bs => if remLE a b then a :: b :: bs else b :: insertRem a bs

/-- Stable sort by the priority comparator. -/
def sortReminders : List Reminder → List Reminder
  | [] => []
  | a :: l => insertRem a (sortReminders l)

/-- The partial `{ notified: true }` passed to `updateReminder` by the
trigger pipeline. -/
def notifyPatch : ReminderPatch :=
  { ReminderPatch.empty with notified := some true }

/-- `_checkForTriggeredReminders()` of geotab.js: filter the overdue
unnotified reminders, sort by priority, and if any remain, emit a
notification `(reminder, current - target)` for the front element and
mark it notified via the store.  The emitted notification is returned as
the first component (`none` when no notification was raised). -/
def checkTriggered (s : Store) : Option (Reminder × Int) × Store :=
  match sortReminders (eligibleReminders s) with
  | [] => (none, s)
  | r :: _ =>
    (some (r, r.current - r.target), (updateReminder r.id notifyPatch s).2)

/-- The status computed inline by `saveReminder` (app.js lines 895-899):
`'scheduled'` for `Date` triggers, the evaluator rule otherwise. -/
def saveStatus (ty : TriggerType) (current target warn : Int) : RStatus :=
  if ty = .date then .scheduled else evalStatus current target warn

/-- The record assembled by `saveReminder` (app.js lines 901-905):
`vehicles` is the picker selection and `vehicle` its first element. -/
def saveReminderData (vs : List String) (task : String) (ty : TriggerType)
    (priority : Priority) (assignee notes : String)
    (target warn current : Int) (date : String) : ReminderData :=
  { vehicle := vs.headD "", vehicles := some vs,
    make := lookupMake (vs.headD ""), task := task, type := ty,
    status := saveStatus ty current target warn, current := current,
    target := target, warn := warn, priority := priority,
    notified := false, assignee := assignee, notes := notes, date := date }

/-- A CRUD operation on the store, for reasoning about sequences of
creations and deletions. -/
inductive Op where
  | addR (d : ReminderData)
  | delR (id : String)
  | addW (d : WorkOrderData)
  | delW (id : String)

/-- Apply one operation. -/
def applyOp (op : Op) (s : Store) : Store :=
  match op with
  | .addR d => (addReminder d s).2
  | .delR id => (deleteReminder id s).2
  | .addW d => (addWorkOrder d s).2
  | .delW id => (deleteWorkOrder id s).2

/-- Run a sequence of operations. -/
def runOps : List Op → Store → Store
  | [], s => s
  | op :: ops, s => runOps ops (applyOp op s)

/-- The ids handed out by the `add` operations of a sequence, in
issue order. -/
def issuedIds : List Op → Store → List String
  | [], _ => []
  | op :: ops, s =>
    match op with
    | .addR d => (addReminder d s).1.id :: issuedIds ops (applyOp op s)
    | .addW d => (addWorkOrder d s).1.id :: issuedIds ops (applyOp op s)
    | .delR _ => issuedIds ops (applyOp op s)
    | .delW _ => issuedIds ops (applyOp op s)

/-- Fixture builder for concrete stores used in counterexamples and
witnesses. -/
def mkRem (id vehicle : String) (vehicles : Option (List String))
    (ty : TriggerType) (st : RStatus) (current target warn : Int)
    (pr : Priority) (notified : Bool) : Reminder :=
  { id := id, vehicle := vehicle, vehicles := vehicles, make := "",
    task := "Oil Change", type := ty, status := st, current := current,
    target := target, warn := warn, priority := pr, notified := notified,
    assignee := "", notes := "", date := "" }

/-- C2 counterexample input: at `current = target = 100`, `warn = 500`
the bounds `0 ≤ target − current ≤ warn` hold but the evaluator's first
branch fires and returns overdue, not due-soon. -/
theorem evalStatus_boundary_counterexample :
    (0 : Int) ≤ 100 - 100 ∧ (100 : Int) - 100 ≤ 500 ∧
    evalStatus 100 100 500 ≠ RStatus.dueSoon := by
  decide

/-- C2 (amended): for every non-Date telemetry triple with
`0 < target − current ≤ warn` the evaluator applied inside
`updateOdometer` returns due-soon; the boundary `target − current = 0`
belongs to the overdue branch instead. -/
theorem evalStatus_dueSoon_of_pos_le (current target warn : Int)
    (h1 : 0 < target - current) (h2 : target - current ≤ warn) :
    evalStatus current target warn = RStatus.dueSoon := by
  unfold evalStatus
  rw [if_neg (by omega), if_pos h2]

/-- Witness for the amended C2 at `current = 40`, `target = 100`,
`warn = 500`. -/
theorem evalStatus_dueSoon_witness :
    (0 : Int) < 100 - 40 ∧ (100 : Int) - 40 ≤ 500 ∧
    evalStatus 40 100 500 = RStatus.dueSoon :=
  ⟨by decide, by decide, evalStatus_dueSoon_of_pos_le 40 100 500
    (by decide) (by decide)⟩

/-- Pointwise effect of the `updateOdometer` loop on each list slot. -/
theorem updateOdometerList_get? (v : String) (x : Int) :
    ∀ (l : List Reminder) (i : Nat),
      ((updateOdometerList v x l).1).get? i =
        (l.get? i).map fun r =>
          if r.vehicle = v ∧ r.type ≠ .date then
            { r with current := x, status := evalStatus x r.target r.warn }
          else r
  | [], i => by simp [updateOdometerList]
  | r :: rest, 0 => by
    by_cases h : r.vehicle = v ∧ r.type ≠ .date <;>
      simp [updateOdometerList, h]
  | r :: rest, (i + 1) => by
    have ih := updateOdometerList_get? v x rest i
    by_cases h : r.vehicle = v ∧ r.type ≠ .date <;>
      simp [updateOdometerList, h] <;> simpa using ih

/-- C3 counterexample fixture: a reminder created through the
`saveReminder` path for the picker selection `["A", "B"]` — its
`vehicle` field is the first selection `"A"`. -/
def c3Rem : Reminder :=
  (saveReminderData ["A", "B"] "Oil Change" .odometer .high "" ""
    100 10 0 "").toReminder "R007"

/-- C3 counterexample store. -/
def c3Store : Store := ⟨[c3Rem], [], 2024, 7⟩

/-- C3 counterexample: `"B"` is a (non-first) member of the reminder's
`vehicles` list and the trigger type is not Date, yet
`updateOdometer("B", 50)` touches nothing: the store is unchanged and
the call reports no change, because the source matches on the primary
`vehicle` field only. -/
theorem updateOdometer_secondary_vehicle_counterexample :
    "B" ∈ c3Rem.vehicleList ∧ c3Rem.type ≠ TriggerType.date ∧
    (updateOdometer "B" 50 c3Store).1 = false ∧
    (updateOdometer "B" 50 c3Store).2 = c3Store := by
  decide

/-- C3 (amended): `updateOdometer(v, x)` rewrites `current` and
recomputes `status` exactly for the reminders whose primary `vehicle`
field equals `v` and whose type is not Date; membership of `v` in the
`vehicles` array plays no role, so secondary vehicles of a
multi-vehicle reminder are not updated. -/
theorem updateOdometer_primary_only (v : String) (x : Int) (s : Store)
    (i : Nat) (r : Reminder) (h : s.reminders.get? i = some r) :
    (updateOdometer v x s).2.reminders.get? i =
      some (if r.vehicle = v ∧ r.type ≠ .date then
              { r with current := x, status := evalStatus x r.target r.warn }
            else r) := by
  have : (updateOdometer v x s).2.reminders =
      (updateOdometerList v x s.reminders).1 := rfl
  rw [this, updateOdometerList_get? v x s.reminders i, h]
  rfl

/-- Witness fixture for the amended C3: a matching primary-vehicle
reminder. -/
def c3wStore : Store :=
  ⟨[mkRem "R001" "A" none .odometer .scheduled 0 100 10 .high false],
   [], 2024, 7⟩

/-- Witness for the amended C3 at slot 0 of a concrete store. -/
theorem updateOdometer_primary_only_witness :
    c3wStore.reminders.get? 0 =
      some (mkRem "R001" "A" none .odometer .scheduled 0 100 10 .high false)
    ∧ (updateOdometer "A" 50 c3wStore).2.reminders.get? 0 =
      some (mkRem "R001" "A" none .odometer .scheduled 50 100 10 .high false) :=
  ⟨by decide, by
    have h := updateOdometer_primary_only "A" 50 c3wStore 0
      (mkRem "R001" "A" none .odometer .scheduled 0 100 10 .high false)
      (by decide)
    rw [h]
    decide⟩

/-- The changed flag of the `updateOdometer` loop is exactly "some
reminder matched the vehicle and was not a Date trigger". -/
theorem updateOdometerList_flag (v : String) (x : Int) :
    ∀ l : List Reminder,
      ((updateOdometerList v x l).2 = true ↔
        ∃ r ∈ l, r.vehicle = v ∧ r.type ≠ TriggerType.date)
  | [] => by simp [updateOdometerList]
  | r :: rest => by
    by_cases h : r.vehicle = v ∧ r.type ≠ TriggerType.date <;>
      simp [updateOdometerList, h, updateOdometerList_flag v x rest]

/-- Applying the `updateOdometer` loop twice with the same reading is
the same as applying it once. -/
theorem updateOdometerList_idem (v : String) (x : Int) :
    ∀ l : List Reminder,
      updateOdometerList v x (updateOdometerList v x l).1 =
        updateOdometerList v x l
  | [] => by simp [updateOdometerList]
  | r :: rest => by
    by_cases h : r.vehicle = v ∧ r.type ≠ TriggerType.date <;>
      simp [updateOdometerList, h, updateOdometerList_idem v x rest]

/-- C4 counterexample fixture: one consistent reminder whose telemetry
already equals the incoming reading. -/
def c4Store : Store :=
  ⟨[mkRem "R001" "A" none .odometer .scheduled 100 200 10 .high false],
   [], 2024, 7⟩

/-- C4 counterexample: rewriting the identical odometer value changes no
field of any reminder (the store after the call equals the store
before), yet the call returns `true`, where the claim demands `false`. -/
theorem updateOdometer_changed_flag_counterexample :
    (updateOdometer "A" 100 c4Store).2 = c4Store ∧
    (updateOdometer "A" 100 c4Store).1 = true := by
  decide

/-- C4 (amended): the boolean returned by `updateOdometer(v, x)` is true
iff some reminder matched (`vehicle = v` and type ≠ Date), regardless of
whether any field value actually differs; the call is nonetheless
idempotent on the store state. -/
theorem updateOdometer_changed_iff_matched (v : String) (x : Int)
    (s : Store) :
    ((updateOdometer v x s).1 = true ↔
      ∃ r ∈ s.reminders, r.vehicle = v ∧ r.type ≠ TriggerType.date)
    ∧ (updateOdometer v x (updateOdometer v x s).2).2 =
        (updateOdometer v x s).2 := by
  refine ⟨updateOdometerList_flag v x s.reminders, ?_⟩
  show ({ s with reminders := _ } : Store) = { s with reminders := _ }
  rw [Store.mk.injEq]
  refine ⟨?_, rfl, rfl, rfl⟩
  show (updateOdometerList v x (updateOdometerList v x s.reminders).1).1 = _
  rw [updateOdometerList_idem v x s.reminders]

/-- Shape of the list produced by the conversion fan-out loop. -/
theorem acceptLoop_spec (r : Reminder) (assignee date notes : String) :
    ∀ (vs : List String) (s : Store),
      ((acceptLoop r assignee date notes vs s).1.map fun w => w.vehicle) = vs
      ∧ (∀ w ∈ (acceptLoop r assignee date notes vs s).1,
          w.status = .open_ ∧ w.reminderId = some r.id ∧
          w.odo = intLocale r.current ∧
          w.notes = (if notes = "" then "Auto-created from reminder " ++ r.id
                     else notes))
  | [], s => by simp [acceptLoop]
  | v :: vs, s => by
    have ih := acceptLoop_spec r assignee date notes vs
      (addWorkOrder (acceptWOData r v assignee date notes) s).2
    refine ⟨?_, ?_⟩
    · simp [acceptLoop, ih.1]
      rfl
    · intro w hw
      rcases List.mem_cons.mp hw with hw | hw
      · subst hw
        exact ⟨rfl, rfl, rfl, rfl⟩
      · exact ih.2 w hw

/-- C5: accepting a reminder creates one Open work order per vehicle of
its vehicle list, in order, each carrying the `reminderId`
back-reference, an `odo` stamp rendered from the reminder's `current`
value, and — when no notes were supplied — the provenance note
`"Auto-created from reminder <id>"`; the returned list has exactly one
entry per vehicle. -/
theorem acceptAndCreateWO_spec (r : Reminder) (assignee date : String)
    (s : Store) :
    (acceptAndCreateWO r assignee date "" s).1.length = r.vehicleList.length
    ∧ ((acceptAndCreateWO r assignee date "" s).1.map fun w => w.vehicle)
        = r.vehicleList
    ∧ (∀ w ∈ (acceptAndCreateWO r assignee date "" s).1,
        w.status = .open_ ∧ w.reminderId = some r.id ∧
        w.odo = intLocale r.current ∧
        w.notes = "Auto-created from reminder " ++ r.id) := by
  have h := acceptLoop_spec r assignee date "" r.vehicleList s
  refine ⟨?_, h.1, ?_⟩
  · have := congrArg List.length h.1
    simpa using this
  · intro w hw
    have := h.2 w hw
    simpa using this

/-- `updateFirst` misses exactly when no record carries the id. -/
theorem updateFirst_eq_none (id : String) (p : ReminderPatch) :
    ∀ l : List Reminder, (∀ r ∈ l, r.id ≠ id) →
      updateFirst id p l = none
  | [], _ => rfl
  | r :: rest, h => by
    unfold updateFirst
    rw [if_neg (h r (by simp))]
    rw [updateFirst_eq_none id p rest fun x hx => h x (by simp [hx])]

/-- C7: `updateReminder` on an id absent from the reminders collection
returns `null` and leaves the whole store (both collections, both
counters) exactly as it was; no record is created and nothing is
raised. -/
theorem updateReminder_unknown_id (id : String) (p : ReminderPatch)
    (s : Store) (h : ∀ r ∈ s.reminders, r.id ≠ id) :
    updateReminder id p s = (none, s) := by
  unfold updateReminder
  rw [updateFirst_eq_none id p s.reminders h]

/-- Witness fixture for C7. -/
def c7Store : Store :=
  ⟨[mkRem "R001" "A" none .odometer .scheduled 0 100 10 .high false],
   [], 2024, 7⟩

/-- Witness for C7: the unknown id `"R999"` is a no-op on a concrete
store. -/
theorem updateReminder_unknown_id_witness :
    (∀ r ∈ c7Store.reminders, r.id ≠ "R999") ∧
    updateReminder "R999" ReminderPatch.empty c7Store =
      (none, c7Store) :=
  ⟨by decide,
   updateReminder_unknown_id "R999" ReminderPatch.empty c7Store (by decide)⟩

/-- `eraseFirstReminder` hits exactly when some record carries the id. -/
theorem eraseFirstReminder_isSome (id : String) :
    ∀ l : List Reminder,
      ((eraseFirstReminder id l).isSome = true ↔ ∃ r ∈ l, r.id = id)
  | [] => by simp [eraseFirstReminder]
  | r :: rest => by
    by_cases h : r.id = id <;>
      simp [eraseFirstReminder, h, eraseFirstReminder_isSome id rest]

/-- C8: `deleteReminder` never cascades: the work-orders collection (and
both counters) are untouched — in particular every work order keeps its
`reminderId` back-reference — and the returned boolean is true exactly
when the id was present. -/
theorem deleteReminder_no_cascade (id : String) (s : Store) :
    (deleteReminder id s).2.workOrders = s.workOrders
    ∧ (deleteReminder id s).2.woCounter = s.woCounter
    ∧ (deleteReminder id s).2.rCounter = s.rCounter
    ∧ ((deleteReminder id s).1 = true ↔ ∃ r ∈ s.reminders, r.id = id) := by
  have hiff := eraseFirstReminder_isSome id s.reminders
  unfold deleteReminder
  cases h : eraseFirstReminder id s.reminders with
  | none => simp [h] at hiff ⊢; exact hiff
  | some l => simp [h] at hiff ⊢; exact hiff

/-- C9: `addReminder` returns the stored record, whose id is `'R'`
followed by the current reminder counter zero-padded to three digits;
the counter is bumped by one (post-increment), the record is prepended
to the collection with every other reminder unchanged in its previous
relative order, and the work-orders side of the store is untouched. -/
theorem addReminder_spec (d : ReminderData) (s : Store) :
    (addReminder d s).1.id = String.mk ('R' :: padChars3 (natDigits s.rCounter))
    ∧ (addReminder d s).2.rCounter = s.rCounter + 1
    ∧ (addReminder d s).2.reminders = (addReminder d s).1 :: s.reminders
    ∧ (addReminder d s).2.workOrders = s.workOrders
    ∧ (addReminder d s).2.woCounter = s.woCounter :=
  ⟨rfl, rfl, rfl, rfl, rfl⟩

/-- `Nat.digitChar` is injective on decimal digits. -/
theorem digitChar_inj10 :
    ∀ a < 10, ∀ b < 10, Nat.digitChar a = Nat.digitChar b → a = b := by
  decide

/-- A decimal digit string is never empty. -/
theorem natDigits_ne_nil (n : Nat) : natDigits n ≠ [] := by
  unfold natDigits
  split <;> simp

/-- The digit string of zero. -/
theorem natDigits_zero : natDigits 0 = ['0'] := by
  unfold natDigits
  rfl

/-- A decimal digit string has a leading `'0'` only for zero itself. -/
theorem natDigits_head_zero :
    ∀ n : Nat, (natDigits n).head? = some '0' → n = 0 := by
  intro n
  induction n using Nat.strong_induction_on with
  | _ n ih =>
    intro h
    by_cases hn : n < 10
    · unfold natDigits at h
      rw [dif_pos hn] at h
      simp at h
      exact digitChar_inj10 n hn 0 (by omega) (by rw [h]; rfl)
    · unfold natDigits at h
      rw [dif_neg hn] at h
      obtain ⟨c, cs, hcons⟩ :=
        List.exists_cons_of_ne_nil (natDigits_ne_nil (n / 10))
      rw [hcons] at h
      simp at h
      have hh : (natDigits (n / 10)).head? = some '0' := by
        rw [hcons, h]
        rfl
      have h10 := ih (n / 10) (Nat.div_lt_self (by omega) (by omega)) hh
      omega

/-- Decimal digit strings are injective. -/
theorem natDigits_inj : ∀ n m : Nat, natDigits m = natDigits n → m = n := by
  intro n
  induction n using Nat.strong_induction_on with
  | _ n ih =>
    intro m h
    by_cases hm : m < 10 <;> by_cases hn : n < 10
    · unfold natDigits at h
      rw [dif_pos hm, dif_pos hn] at h
      simp at h
      exact digitChar_inj10 m hm n hn h
    · unfold natDigits at h
      rw [dif_pos hm, dif_neg hn] at h
      have hl := congrArg List.length h
      simp at hl
      exact absurd hl (natDigits_ne_nil (n / 10))
    · unfold natDigits at h
      rw [dif_neg hm, dif_pos hn] at h
      have hl := congrArg List.length h
      simp at hl
      exact absurd hl (natDigits_ne_nil (m / 10))
    · unfold natDigits at h
      rw [dif_neg hm, dif_neg hn] at h
      have h' := congrArg List.reverse h
      simp at h'
      have e1 : m % 10 = n % 10 :=
        digitChar_inj10 (m % 10) (Nat.mod_lt m (by omega)) (n % 10)
          (Nat.mod_lt n (by omega)) h'.1
      have e2 : m / 10 = n / 10 :=
        ih (n / 10) (Nat.div_lt_self (by omega) (by omega)) (m / 10) h'.2
      omega

/-- Zero-padding to three characters is injective on leading-zero-free
nonempty strings. -/
theorem padChars3_inj_of (a b : List Char) (ha : a ≠ []) (hb : b ≠ [])
    (ha0 : a.head? = some '0' → a = ['0'])
    (hb0 : b.head? = some '0' → b = ['0'])
    (h : padChars3 a = padChars3 b) : a = b := by
  unfold padChars3 at h
  by_cases hla : a.length < 3 <;> by_cases hlb : b.length < 3
  · rw [if_pos hla, if_pos hlb] at h
    have ha1 : a.length = 1 ∨ a.length = 2 := by
      have := List.length_pos.mpr ha
      omega
    have hb1 : b.length = 1 ∨ b.length = 2 := by
      have := List.length_pos.mpr hb
      omega
    rcases ha1 with h1 | h1 <;> rcases hb1 with h2 | h2
    · rw [h1, h2] at h
      exact (List.append_inj h (by simp)).2
    · obtain ⟨x, hx⟩ := List.length_eq_one.mp h1
      obtain ⟨y, z, hyz⟩ := List.length_eq_two.mp h2
      subst hx
      subst hyz
      rw [h1, h2] at h
      rw [show List.replicate (3 - 1) '0' = ['0', '0'] from rfl,
          show List.replicate (3 - 2) '0' = ['0'] from rfl] at h
      simp at h
      have hb' := hb0 (by rw [← h.1]; rfl)
      simp at hb'
    · obtain ⟨y, z, hyz⟩ := List.length_eq_two.mp h1
      obtain ⟨x, hx⟩ := List.length_eq_one.mp h2
      subst hx
      subst hyz
      rw [h1, h2] at h
      rw [show List.replicate (3 - 2) '0' = ['0'] from rfl,
          show List.replicate (3 - 1) '0' = ['0', '0'] from rfl] at h
      simp at h
      have ha' := ha0 (by rw [h.1]; rfl)
      simp at ha'
    · rw [h1, h2] at h
      exact (List.append_inj h (by simp)).2
  · rw [if_pos hla, if_neg hlb] at h
    have hlen := congrArg List.length h
    simp at hlen
    have hb3 : b.length = 3 := by omega
    obtain ⟨k, hk⟩ : ∃ k, 3 - a.length = k + 1 :=
      ⟨2 - a.length, by have := List.length_pos.mpr ha; omega⟩
    rw [hk] at h
    have hbh : b.head? = some '0' := by
      rw [← h]
      simp [List.replicate_succ]
    have hb' := hb0 hbh
    rw [hb'] at hb3
    simp at hb3
  · rw [if_neg hla, if_pos hlb] at h
    have hlen := congrArg List.length h
    simp at hlen
    have ha3 : a.length = 3 := by omega
    obtain ⟨k, hk⟩ : ∃ k, 3 - b.length = k + 1 :=
      ⟨2 - b.length, by have := List.length_pos.mpr hb; omega⟩
    rw [hk] at h
    have hah : a.head? = some '0' := by
      rw [h]
      simp [List.replicate_succ]
    have ha' := ha0 hah
    rw [ha'] at ha3
    simp at ha3
  · rw [if_neg hla, if_neg hlb] at h
    exact h

/-- A digit string with a leading zero is the digit string of zero. -/
theorem natDigits_head_zero_eq (n : Nat)
    (h : (natDigits n).head? = some '0') : natDigits n = ['0'] := by
  rw [natDigits_head_zero n h]
  exact natDigits_zero

/-- Reminder id strings are injective in the counter value. -/
theorem rIdStr_inj {m n : Nat} (h : rIdStr m = rIdStr n) : m = n := by
  unfold rIdStr at h
  have h := congrArg String.data h
  rw [List.cons.injEq] at h
  exact natDigits_inj n m
    (padChars3_inj_of (natDigits m) (natDigits n) (natDigits_ne_nil m)
      (natDigits_ne_nil n) (natDigits_head_zero_eq m)
      (natDigits_head_zero_eq n) h.2)

/-- Work order id strings are injective in the counter value. -/
theorem woIdStr_inj {m n : Nat} (h : woIdStr m = woIdStr n) : m = n := by
  unfold woIdStr at h
  have h := congrArg String.data h
  rw [List.cons.injEq, List.cons.injEq, List.cons.injEq] at h
  exact natDigits_inj n m h.2.2.2

/-- Reminder ids and work order ids live in disjoint namespaces. -/
theorem rIdStr_ne_woIdStr (m n : Nat) : rIdStr m ≠ woIdStr n := by
  intro h
  unfold rIdStr woIdStr at h
  have h := congrArg String.data h
  rw [List.cons.injEq] at h
  exact absurd h.1 (by decide)

/-- No single operation ever decrements either id counter: adds bump
their own counter and deletes leave both alone. -/
theorem applyOp_counters (op : Op) (s : Store) :
    s.rCounter ≤ (applyOp op s).rCounter ∧
    s.woCounter ≤ (applyOp op s).woCounter := by
  cases op with
  | addR d => exact ⟨Nat.le_succ _, Nat.le_refl _⟩
  | addW d => exact ⟨Nat.le_refl _, Nat.le_succ _⟩
  | delR id =>
    simp only [applyOp, deleteReminder]
    cases h : eraseFirstReminder id s.reminders <;> simp [h]
  | delW id =>
    simp only [applyOp, deleteWorkOrder]
    cases h : eraseFirstWorkOrder id s.workOrders <;> simp [h]

/-- Reminder ids below the current counter are never issued again. -/
theorem rIdStr_notIn_issued :
    ∀ (ops : List Op) (s : Store) (k : Nat), k < s.rCounter →
      rIdStr k ∉ issuedIds ops s
  | [], _, _, _ => by simp [issuedIds]
  | op :: ops, s, k, hk => by
    have hrec := rIdStr_notIn_issued ops (applyOp op s) k
      (Nat.lt_of_lt_of_le hk (applyOp_counters op s).1)
    cases op with
    | addR d =>
      intro hmem
      simp only [issuedIds] at hmem
      rcases List.mem_cons.mp hmem with he | hm
      · exact absurd (rIdStr_inj he) (by omega)
      · exact hrec hm
    | addW d =>
      intro hmem
      simp only [issuedIds] at hmem
      rcases List.mem_cons.mp hmem with he | hm
      · exact absurd he (rIdStr_ne_woIdStr k (s.woCounter + 1))
      · exact hrec hm
    | delR id =>
      intro hmem
      simp only [issuedIds] at hmem
      exact hrec hmem
    | delW id =>
      intro hmem
      simp only [issuedIds] at hmem
      exact hrec hmem

/-- Work order ids at or below the current counter are never issued
again. -/
theorem woIdStr_notIn_issued :
    ∀ (ops : List Op) (s : Store) (k : Nat), k ≤ s.woCounter →
      woIdStr k ∉ issuedIds ops s
  | [], _, _, _ => by simp [issuedIds]
  | op :: ops, s, k, hk => by
    have hrec := woIdStr_notIn_issued ops (applyOp op s) k
      (Nat.le_trans hk (applyOp_counters op s).2)
    cases op with
    | addR d =>
      intro hmem
      simp only [issuedIds] at hmem
      rcases List.mem_cons.mp hmem with he | hm
      · exact absurd he.symm (rIdStr_ne_woIdStr s.rCounter k)
      · exact hrec hm
    | addW d =>
      intro hmem
      simp only [issuedIds] at hmem
      rcases List.mem_cons.mp hmem with he | hm
      · exact absurd (woIdStr_inj he) (by omega)
      · exact hrec hm
    | delR id =>
      intro hmem
      simp only [issuedIds] at hmem
      exact hrec hmem
    | delW id =>
      intro hmem
      simp only [issuedIds] at hmem
      exact hrec hmem

/-- The issued id list of any operation sequence has no duplicate. -/
theorem issuedIds_nodup_aux :
    ∀ (ops : List Op) (s : Store), (issuedIds ops s).Nodup
  | [], _ => by simp [issuedIds]
  | op :: ops, s => by
    cases op with
    | addR d =>
      simp only [issuedIds]
      exact List.nodup_cons.mpr
        ⟨rIdStr_notIn_issued ops _ s.rCounter (Nat.lt_succ_self _),
         issuedIds_nodup_aux ops _⟩
    | addW d =>
      simp only [issuedIds]
      exact List.nodup_cons.mpr
        ⟨woIdStr_notIn_issued ops _ (s.woCounter + 1) (Nat.le_refl _),
         issuedIds_nodup_aux ops _⟩
    | delR id =>
      simp only [issuedIds]
      exact issuedIds_nodup_aux ops _
    | delW id =>
      simp only [issuedIds]
      exact issuedIds_nodup_aux ops _

/-- C6: across any sequence of `addReminder` / `deleteReminder` /
`addWorkOrder` / `deleteWorkOrder` operations from any starting store
(the initial store included), every id handed out is distinct from every
id issued earlier in the sequence — deletion never frees an id for
reuse — and both counters only ever grow. -/
theorem issuedIds_nodup (ops : List Op) (s : Store) :
    (issuedIds ops s).Nodup
    ∧ s.rCounter ≤ (runOps ops s).rCounter
    ∧ s.woCounter ≤ (runOps ops s).woCounter := by
  refine ⟨issuedIds_nodup_aux ops s, ?_⟩
  induction ops generalizing s with
  | nil => exact ⟨Nat.le_refl _, Nat.le_refl _⟩
  | cons op ops ih =>
    have h1 := applyOp_counters op s
    have h2 := ih (applyOp op s)
    exact ⟨Nat.le_trans h1.1 h2.1, Nat.le_trans h1.2 h2.2⟩

/-- A nonempty prefix never matches the empty string. -/
theorem jsStartsWith_empty (m : String) (hm : m ≠ "") :
    jsStartsWith "" m = false := by
  unfold jsStartsWith
  cases m with
  | mk data =>
    cases data with
    | nil => exact absurd (by decide) hm
    | cons c cs => rfl

/-- For a nonempty month prefix, the truthiness guard `w.date &&` in the
month-bucket filter is redundant. -/
theorem monthFilter_eq (m : String) (hm : m ≠ "") (l : List WorkOrder) :
    (l.filter fun w => decide (w.date ≠ "") && jsStartsWith w.date m) =
      l.filter fun w => jsStartsWith w.date m := by
  apply List.filter_congr
  intro w _
  by_cases hd : w.date = ""
  · simp [hd, jsStartsWith_empty m hm]
  · simp [hd]

/-- Summing costs with `foldl` is summing the mapped cost list. -/
theorem foldl_cost (l : List WorkOrder) : ∀ a : Int,
    l.foldl (fun sum w => sum + w.cost.getD 0) a =
      a + (l.map fun w => w.cost.getD 0).sum := by
  induction l with
  | nil => simp
  | cons w t ih => intro a; simp [ih, add_assoc]

/-- C10: month-to-date `spend` sums `cost || 0` over every work order
whose `date` starts with the current year-month prefix, with no status
filter — Open and In Progress orders in the bucket contribute — while
`completed` counts only the bucket's Completed orders; `completionDate`
influences neither figure (rewriting it arbitrarily leaves the stats
unchanged), and rewriting statuses arbitrarily leaves `spend`
unchanged. -/
theorem getWOStats_spec (m : String) (hm : m ≠ "") (s : Store)
    (f : WorkOrder → String) (g : WorkOrder → WOStatus) :
    (getWOStats m s).spend =
      ((s.workOrders.filter fun w => jsStartsWith w.date m).map
        fun w => w.cost.getD 0).sum
    ∧ (getWOStats m s).completed =
        (s.workOrders.filter fun w =>
          decide (w.status = WOStatus.completed) && jsStartsWith w.date m).length
    ∧ getWOStats m { s with workOrders :=
        (s.workOrders.map fun w => { w with completionDate := f w }) } =
        getWOStats m s
    ∧ (getWOStats m { s with workOrders :=
        (s.workOrders.map fun w => { w with status := g w }) }).spend =
        (getWOStats m s).spend := by
  refine ⟨?_, ?_, ?_, ?_⟩
  · show (s.workOrders.filter fun w =>
        decide (w.date ≠ "") && jsStartsWith w.date m).foldl
        (fun sum w => sum + w.cost.getD 0) 0 = _
    rw [monthFilter_eq m hm, foldl_cost]
    simp
  · show ((s.workOrders.filter fun w =>
        decide (w.date ≠ "") && jsStartsWith w.date m).filter
        fun w => decide (w.status = WOStatus.completed)).length = _
    rw [monthFilter_eq m hm, List.filter_filter]
  · show getWOStats m ⟨s.reminders,
        s.workOrders.map fun w => { w with completionDate := f w },
        s.woCounter, s.rCounter⟩ = getWOStats m s
    unfold getWOStats
    simp only [List.filter_map, List.length_map, List.foldl_map]
    rfl
  · show (getWOStats m ⟨s.reminders,
        s.workOrders.map fun w => { w with status := g w },
        s.woCounter, s.rCounter⟩).spend = (getWOStats m s).spend
    unfold getWOStats
    simp only [List.filter_map, List.foldl_map]
    rfl

/-- Witness fixture builder for work orders. -/
def mkWO (id : String) (st : WOStatus) (cost : Option Int)
    (date compDate : String) : WorkOrder :=
  { id := id, vehicle := "VAN-012", make := "", task := "Coolant Flush",
    status := st, assignee := "", odo := "44,200", cost := cost,
    date := date, notes := "", parts := "", labor := "",
    reminderId := none, completionDate := compDate }

/-- Witness fixture for C10: Open, Completed (in and out of month) and
In Progress orders with mixed costs. -/
def c10Store : Store :=
  ⟨[],
   [mkWO "WO-2023" .open_ (some 280) "2026-02-20" "",
    mkWO "WO-2022" .completed (some 320) "2026-02-10" "2026-02-11",
    mkWO "WO-2021" .completed (some 500) "2026-01-10" "2026-02-01",
    mkWO "WO-2020" .inProgress none "2026-02-18" ""],
   2024, 7⟩

/-- Witness for C10 at the concrete month `"2026-02"`: the spend
equation and the completed-count equation of `getWOStats_spec`
instantiated on a concrete store. -/
theorem getWOStats_spec_witness :
    ("2026-02" : String) ≠ "" ∧
    (getWOStats "2026-02" c10Store).spend =
      ((c10Store.workOrders.filter fun w => jsStartsWith w.date "2026-02").map
        fun w => w.cost.getD 0).sum ∧
    (getWOStats "2026-02" c10Store).completed =
      (c10Store.workOrders.filter fun w =>
        decide (w.status = WOStatus.completed) &&
          jsStartsWith w.date "2026-02").length :=
  ⟨by decide,
   (getWOStats_spec "2026-02" (by decide) c10Store (fun _ => "")
     (fun _ => .open_)).1,
   (getWOStats_spec "2026-02" (by decide) c10Store (fun _ => "")
     (fun _ => .open_)).2.1⟩

/-- Membership is preserved by priority insertion. -/
theorem mem_insertRem (a b : Reminder) :
    ∀ l, b ∈ insertRem a l ↔ b = a ∨ b ∈ l
  | [] => by simp [insertRem]
  | c :: cs => by
    by_cases h : remLE a c
    · simp [insertRem, h]
    · simp [insertRem, h, mem_insertRem a b cs]
      tauto

/-- Membership is preserved by the priority sort. -/
theorem mem_sortReminders (b : Reminder) :
    ∀ l, b ∈ sortReminders l ↔ b ∈ l
  | [] => by simp [sortReminders]
  | a :: l => by
    simp [sortReminders, mem_insertRem, mem_sortReminders b l]

/-- Insertion never produces the empty list. -/
theorem insertRem_ne_nil (a : Reminder) : ∀ l, insertRem a l ≠ []
  | [] => by simp [insertRem]
  | c :: cs => by by_cases h : remLE a c <;> simp [insertRem, h]

/-- The sort output is empty exactly for empty input. -/
theorem sortReminders_nil_iff : ∀ l, sortReminders l = [] ↔ l = []
  | [] => by simp [sortReminders]
  | a :: l => by simp [sortReminders, insertRem_ne_nil]

/-- The boolean comparator decodes to the rank inequality. -/
theorem remLE_iff (a b : Reminder) :
    remLE a b = true ↔ priorityOrder a.priority ≤ priorityOrder b.priority := by
  simp [remLE]

/-- The front of the sorted list has minimal priority rank among all
input elements. -/
theorem sortReminders_head_min :
    ∀ (l : List Reminder) (r : Reminder) (t : List Reminder),
      sortReminders l = r :: t →
      ∀ x ∈ l, priorityOrder r.priority ≤ priorityOrder x.priority
  | [], r, t, h => by simp [sortReminders] at h
  | a :: l, r, t, h => by
    rw [sortReminders] at h
    cases hs : sortReminders l with
    | nil =>
      rw [hs] at h
      have hl : l = [] := (sortReminders_nil_iff l).mp hs
      subst hl
      simp [insertRem] at h
      intro x hx
      simp at hx
      subst hx
      rw [h.1]
    | cons b bs =>
      rw [hs] at h
      have ihb := sortReminders_head_min l b bs hs
      by_cases hle : remLE a b
      · rw [insertRem, if_pos hle] at h
        have hra : r = a := (List.cons.injEq _ _ _ _ ▸ h).1.symm
        subst hra
        intro x hx
        rcases List.mem_cons.mp hx with hxa | hxl
        · rw [hxa]
        · exact Nat.le_trans ((remLE_iff r b).mp hle) (ihb x hxl)
      · rw [insertRem, if_neg hle] at h
        have hrb : r = b := (List.cons.injEq _ _ _ _ ▸ h).1.symm
        subst hrb
        intro x hx
        rcases List.mem_cons.mp hx with hxa | hxl
        · rw [hxa]
          have := (remLE_iff a r).not.mp (by simpa using hle)
          omega
        · exact ihb x hxl

/-- Marking notified through the patch is the plain field rewrite. -/
theorem applyPatch_notify (r : Reminder) :
    applyPatch r notifyPatch = { r with notified := true } := rfl

/-- `updateFirst` hits whenever some record carries the id. -/
theorem updateFirst_isSome (id : String) (p : ReminderPatch) :
    ∀ l : List Reminder, (∃ x ∈ l, x.id = id) →
      ∃ u l', updateFirst id p l = some (u, l')
  | [], h => by simp at h
  | a :: t, h => by
    by_cases ha : a.id = id
    · exact ⟨_, _, by rw [updateFirst, if_pos ha]⟩
    · obtain ⟨x, hx, hxid⟩ := h
      rcases List.mem_cons.mp hx with hxa | hx'
      · exact absurd (hxa ▸ hxid) ha
      · obtain ⟨u, l', hl⟩ := updateFirst_isSome id p t ⟨x, hx', hxid⟩
        exact ⟨u, a :: l', by rw [updateFirst, if_neg ha, hl]⟩

/-- Marking the selected reminder notified removes exactly one element
from the eligible set (ids must be duplicate-free). -/
theorem filter_len_after_notify :
    ∀ (l : List Reminder) (r : Reminder),
      (l.map fun x => x.id).Nodup → r ∈ l → triggeredPred r = true →
      ∀ u l', updateFirst r.id notifyPatch l = some (u, l') →
        (l'.filter triggeredPred).length + 1 = (l.filter triggeredPred).length
  | [], r, _, hr, _, _, _, _ => by simp at hr
  | a :: t, r, hnd, hr, htr, u, l', hup => by
    by_cases ha : a.id = r.id
    · have hra : r = a := by
        rcases List.mem_cons.mp hr with hrr | hrt
        · exact hrr
        · exfalso
          have hmem : a.id ∈ t.map fun x => x.id := by
            rw [ha]
            exact List.mem_map.mpr ⟨r, hrt, rfl⟩
          exact (List.nodup_cons.mp hnd).1 hmem
      subst hra
      rw [updateFirst, if_pos rfl] at hup
      have hup' : applyPatch r notifyPatch = u ∧
          applyPatch r notifyPatch :: t = l' := by simpa using hup
      rw [← hup'.2]
      have hpf : triggeredPred (applyPatch r notifyPatch) = false := by
        rw [applyPatch_notify]
        simp [triggeredPred]
      simp [List.filter_cons, hpf, htr]
    · have hrt : r ∈ t := by
        rcases List.mem_cons.mp hr with hrr | hrt
        · exact absurd (hrr ▸ rfl) ha
        · exact hrt
      rw [updateFirst, if_neg ha] at hup
      cases hin : updateFirst r.id notifyPatch t with
      | none => rw [hin] at hup; simp at hup
      | some pr =>
        obtain ⟨u2, t2⟩ := pr
        rw [hin] at hup
        have hup' : u2 = u ∧ a :: t2 = l' := by simpa using hup
        have ih := filter_len_after_notify t r (List.nodup_cons.mp hnd).2
          hrt htr u2 t2 hin
        rw [← hup'.2]
        by_cases hpa : triggeredPred a <;>
          simp [List.filter_cons, hpa] <;> omega

/-- C1 (amended): with duplicate-free reminder ids, every call to
`checkTriggered` that finds the eligible (overdue, unnotified) set
non-empty raises exactly one notification: for a minimal-priority
eligible reminder, with payload `current − target`, and it shrinks the
eligible set by exactly one, so `K` consecutive calls raise
`min(K, N)` notifications — one per call while eligible reminders
remain, each reminder at most once — not one in total; a call that
finds no eligible reminder raises nothing and leaves the store
untouched, so once the eligible set is exhausted every further call
raises zero. -/
theorem checkTriggered_once_per_call (s : Store)
    (hids : (s.reminders.map fun r => r.id).Nodup) :
    (∀ r over, (checkTriggered s).1 = some (r, over) →
      r ∈ s.reminders ∧ r.status = RStatus.overdue ∧ r.notified = false
      ∧ over = r.current - r.target
      ∧ (∀ x ∈ s.reminders, x.status = RStatus.overdue →
          x.notified = false →
          priorityOrder r.priority ≤ priorityOrder x.priority)
      ∧ (eligibleReminders (checkTriggered s).2).length + 1 =
          (eligibleReminders s).length)
    ∧ ((checkTriggered s).1 = none ↔ eligibleReminders s = [])
    ∧ (eligibleReminders s = [] → checkTriggered s = (none, s)) := by
  cases hs : sortReminders (eligibleReminders s) with
  | nil =>
    have hel : eligibleReminders s = [] := (sortReminders_nil_iff _).mp hs
    have hct : checkTriggered s = (none, s) := by
      unfold checkTriggered
      rw [hs]
    refine ⟨?_, ?_, fun _ => hct⟩
    · intro r over heq
      rw [hct] at heq
      simp at heq
    · rw [hct]
      simp [hel]
  | cons r0 t0 =>
    have hct : checkTriggered s =
        (some (r0, r0.current - r0.target),
         (updateReminder r0.id notifyPatch s).2) := by
      unfold checkTriggered
      rw [hs]
    have hr0mem : r0 ∈ eligibleReminders s :=
      (mem_sortReminders r0 _).mp (hs ▸ List.mem_cons_self r0 t0)
    have hr0l := List.mem_filter.mp hr0mem
    have hpred : r0.status = RStatus.overdue ∧ r0.notified = false := by
      simpa [triggeredPred] using hr0l.2
    refine ⟨?_, ?_, ?_⟩
    · intro r over heq
      rw [hct] at heq
      simp at heq
      obtain ⟨hr, hover⟩ := heq
      refine ⟨hr ▸ hr0l.1, hr ▸ hpred.1, hr ▸ hpred.2, ?_, ?_, ?_⟩
      · rw [← hr, ← hover]
      · intro x hx hxs hxn
        rw [← hr]
        exact sortReminders_head_min (eligibleReminders s) r0 t0 hs x
          (List.mem_filter.mpr ⟨hx, by simp [triggeredPred, hxs, hxn]⟩)
      · obtain ⟨u, l', hupd⟩ := updateFirst_isSome r0.id notifyPatch
          s.reminders ⟨r0, hr0l.1, rfl⟩
        have h2 : (checkTriggered s).2.reminders = l' := by
          rw [hct]
          show (updateReminder r0.id notifyPatch s).2.reminders = l'
          unfold updateReminder
          rw [hupd]
        show ((checkTriggered s).2.reminders.filter triggeredPred).length + 1
          = _
        rw [h2]
        exact filter_len_after_notify s.reminders r0 hids hr0l.1 hr0l.2
          u l' hupd
    · rw [hct]
      constructor
      · intro h
        simp at h
      · intro h
        exact absurd (h ▸ hr0mem) (List.not_mem_nil r0)
    · intro h
      exact absurd (h ▸ hr0mem) (List.not_mem_nil r0)

/-- C1 counterexample fixtures: two overdue, unnotified reminders. -/
def c1xA : Reminder :=
  mkRem "R001" "A" none .odometer .overdue 150 100 10 .high false

/-- Second overdue, unnotified reminder for the C1 counterexample. -/
def c1xB : Reminder :=
  mkRem "R002" "B" none .odometer .overdue 300 200 10 .medium false

/-- C1 counterexample store with `N = 2` eligible reminders. -/
def c1xStore : Store := ⟨[c1xA, c1xB], [], 2024, 7⟩

/-- C1 counterexample: with two overdue unnotified reminders and no
intervening external state change, the first call raises a
notification and so does the second call — `K = 2` consecutive calls
raise two notifications, not exactly one, and the subsequent call does
not raise zero. -/
theorem checkTriggered_second_call_fires :
    (checkTriggered c1xStore).1.isSome = true ∧
    (checkTriggered (checkTriggered c1xStore).2).1.isSome = true := by
  decide

/-- Witness fixture for the amended C1: a store with a single eligible
reminder next to a non-eligible one. -/
def c1wStore : Store :=
  ⟨[mkRem "R001" "A" none .odometer .overdue 150 100 10 .high false,
    mkRem "R002" "B" none .odometer .scheduled 0 100 10 .low false],
   [], 2024, 7⟩

/-- Witness for the amended C1 on a concrete store: the ids are
duplicate-free, the call notifies the overdue reminder, and the
eligible count drops from one to zero. -/
theorem checkTriggered_once_per_call_witness :
    (c1wStore.reminders.map fun r => r.id).Nodup ∧
    (eligibleReminders (checkTriggered c1wStore).2).length + 1 =
      (eligibleReminders c1wStore).length :=
  ⟨by decide,
   ((checkTriggered_once_per_call c1wStore (by decide)).1
     (mkRem "R001" "A" none .odometer .overdue 150 100 10 .high false) 50
     (by decide)).2.2.2.2.2⟩
